import Mathlib

/-!
  Verification of the `iFrameResponsive` PCF control
  (src/iFrameResponsive/index.ts) against its specification.

  The TypeScript class is shallowly embedded: DOM handles that may be
  `undefined` before `createUI` runs are `Option`s, element inline styles are
  association lists of CSS declarations (property, value, important-flag) with
  CSSOM "set a CSS declaration" replace semantics, and the class's mutable
  fields form a `WidgetState` record threaded through the operations.
  JavaScript string primitives (split, trim, toLowerCase, startsWith,
  includes, parseInt(-,16), Number.toString(16)) are re-implemented as
  structural recursions over `List Char` so that every definition evaluates
  inside the kernel.
-/

/-! ## JavaScript string primitives -/

/-- JS `a?.raw || d`: the declared default wins when the raw value is `null`
(`none`) or the empty string (both falsy). -/
def jsOr (o : Option String) (d : String) : String :=
  match o with
  | some s => if s = "" then d else s
  | none => d

/-- JS truthiness of an optional string: `null`/`undefined` and `""` are falsy. -/
def jsTruthy (o : Option String) : Bool :=
  match o with
  | some s => s != ""
  | none => false

/-- JS `String.prototype.split` with a one-character separator.
`"".split(sep)` is `[""]`, and separators at the ends produce empty pieces,
exactly as in JavaScript. -/
def splitOnChar (sep : Char) : List Char → List (List Char)
  | [] => [[]]
  | c :: rest =>
    let r := splitOnChar sep rest
    if c = sep then [] :: r
    else
      match r with
      | h :: t => (c :: h) :: t
      | [] => [[c]]

/-- Whitespace characters removed by JS `String.prototype.trim`
(tab, line feed, vertical tab, form feed, carriage return, space). -/
def isJsSpace (c : Char) : Bool :=
  c = ' ' || c = '\t' || c = '\n' || c = '\r' || c.toNat = 11 || c.toNat = 12

/-- JS `String.prototype.trim` on a character list. -/
def trimChars (l : List Char) : List Char :=
  ((l.dropWhile isJsSpace).reverse.dropWhile isJsSpace).reverse

/-- Whether `p` is an initial segment of the second list (JS `startsWith`). -/
def hasPrefixChars : List Char → List Char → Bool
  | [], _ => true
  | _ :: _, [] => false
  | p :: ps, c :: cs => p == c && hasPrefixChars ps cs

/-- JS `String.prototype.startsWith`. -/
def jsStartsWith (s pre : String) : Bool :=
  hasPrefixChars pre.data s.data

/-- JS `String.prototype.includes` (substring occurrence). -/
def hasSubChars (pat : List Char) : List Char → Bool
  | [] => hasPrefixChars pat []
  | c :: cs => hasPrefixChars pat (c :: cs) || hasSubChars pat cs

/-- JS `String.prototype.includes("px")`. -/
def includesPx (s : List Char) : Bool :=
  hasSubChars ['p', 'x'] s

/-- JS `String.prototype.toLowerCase` (ASCII range, which is all the source
compares against). -/
def lowerChars (l : List Char) : List Char :=
  l.map Char.toLower

/-! ## Hex numbers: `parseInt(s, 16)` and `Number.prototype.toString(16)` -/

/-- Value of one hexadecimal digit (`0-9`, `a-f`, `A-F`), by character code. -/
def hexDigitVal (c : Char) : Option Nat :=
  if 48 ≤ c.toNat ∧ c.toNat ≤ 57 then some (c.toNat - 48)        -- '0'..'9'
  else if 97 ≤ c.toNat ∧ c.toNat ≤ 102 then some (c.toNat - 87)  -- 'a'..'f'
  else if 65 ≤ c.toNat ∧ c.toNat ≤ 70 then some (c.toNat - 55)   -- 'A'..'F'
  else none

def isHexDig (c : Char) : Bool :=
  (hexDigitVal c).isSome

/-- JS `parseInt(s, 16)` on the given characters: the longest hex-digit
prefix is converted; `none` models the `NaN` result when no digit leads.
(The source only ever applies it to the text after a leading `#`, so the
sign/whitespace/`0x` handling of full `parseInt` never comes into play.) -/
def jsParseIntHexList (cs : List Char) : Option Nat :=
  let ds := cs.takeWhile isHexDig
  if ds.isEmpty then none
  else some (ds.foldl (fun a c => 16 * a + (hexDigitVal c).getD 0) 0)

/-- Big-endian base-16 digits, fuelled so that the kernel can evaluate it;
`toString16` supplies sufficient fuel. -/
def toString16Aux : Nat → Nat → List Char
  | 0, _ => []
  | fuel + 1, n =>
    if n < 16 then [Nat.digitChar n]
    else toString16Aux fuel (n / 16) ++ [Nat.digitChar (n % 16)]

/-- JS `Number.prototype.toString(16)` for a natural number (lowercase). -/
def toString16 (n : Nat) : List Char :=
  toString16Aux (n + 1) n

/-- JS `ToInt32` applied to a natural number (how `>>` and `&` coerce their
operands). -/
def toInt32 (n : Nat) : Int :=
  let m := n % 4294967296
  if m < 2147483648 then (m : Int) else (m : Int) - 4294967296

/-! ## `Math.round(2.55 * percent)` in IEEE-754 double arithmetic

The literal `2.55` is not representable as a double; the nearest double is
`2871044762448691 / 2^50` (a hair BELOW 2.55).  The multiplication
`2.55 * percent` rounds the exact product to 53 significant bits
(round-to-nearest, ties-to-even), and `Math.round` then returns the integer
closest to that double, halves toward +∞.  All three steps are exact integer
computations, modelled below.  The net effect for `percent` in [0, 100]: the
result equals the exact `round(2.55 * percent)` everywhere except at 50 and
90, where the double product (`127.49999999999999`, `229.49999999999997`)
falls just below the half-way point and the result is one less (127, 229);
at 10, 30 and 70 the product rounds up to exactly `k + 0.5` and `Math.round`
still rounds it up. -/

/-- Number of bits of a natural number (0 for 0), fuelled so that the kernel
can evaluate it; `bitLen` supplies sufficient fuel. -/
def bitLenAux : Nat → Nat → Nat
  | 0, _ => 0
  | fuel + 1, n => if n = 0 then 0 else bitLenAux fuel (n / 2) + 1

/-- Bit length of a natural number. -/
def bitLen (n : Nat) : Nat :=
  bitLenAux (n + 1) n

/-- `n / 2^s` rounded to the nearest integer, ties to even — the rounding
IEEE-754 applies to a too-long significand. -/
def roundNearestEven (n s : Nat) : Nat :=
  if s = 0 then n
  else
    let q := n / 2 ^ s
    let r := n % 2 ^ s
    let half := 2 ^ (s - 1)
    if half < r then q + 1
    else if r < half then q
    else if q % 2 = 0 then q else q + 1

/-- The significand of the IEEE-754 double nearest to the literal `2.55`:
the double is `2871044762448691 * 2 ^ (-50)`. -/
def double255Num : Nat := 2871044762448691

/-- `Math.round(2.55 * p)` computed as JavaScript does: the exact product
`double255Num * p / 2^50` is rounded to 53 significant bits (nearest, ties to
even) by the double multiplication, and `Math.round` takes the closest
integer to the resulting (exactly represented) rational, halves toward +∞,
i.e. `⌊v + 1/2⌋` for the nonnegative `v` here. -/
def jsRound255 (p : Nat) : Nat :=
  if p = 0 then 0
  else
    let N := double255Num * p
    let L := bitLen N
    if L ≤ 53 then (2 * N + 2 ^ 50) / 2 ^ 51
    else
      let s := L - 53
      let S := roundNearestEven N s
      if 50 ≤ s then S * 2 ^ (s - 50)
      else (2 * S + 2 ^ (50 - s)) / 2 ^ (51 - s)

/-! ## `darkenColor` (src/iFrameResponsive/index.ts, lines 286-299) -/

/-- The channel clamp `(X < 255 ? X < 1 ? 0 : X : 255)` from `darkenColor`. -/
def clampCh (x : Int) : Nat :=
  if x < 255 then (if x < 1 then 0 else x.toNat) else 255

/-- Body of `darkenColor` over the input's characters.  `color.startsWith('#')`
is the head test; `color.replace("#", "")` removes that first `#`, i.e. keeps
`rest`.  `parseInt(hex, 16)` yielding `NaN` makes the bitwise channel reads
produce `0`.  `Math.round(2.55 * percent)` is the IEEE-754 double computation
`jsRound255 percent`; `>>` is a floor division of the `ToInt32` image and
`& 0xFF` its nonnegative remainder mod 256.  The result is
`"#" + (0x1000000 + R'*0x10000 + G'*0x100 + B').toString(16).slice(1)`. -/
def darkenColorCore (l : List Char) (percent : Nat) : List Char :=
  match l with
  | c :: rest =>
    if c = '#' then
      -- `ToInt32` of the parse result; a `NaN` (`none`) coerces to 0
      let num : Int := toInt32 ((jsParseIntHexList rest).getD 0)
      let amt : Int := (jsRound255 percent : Nat)
      let r := num.fdiv 65536 + amt
      let g := (num.fdiv 256).emod 256 + amt
      let b := num.emod 256 + amt
      '#' :: (toString16 (16777216 + clampCh r * 65536 + clampCh g * 256 + clampCh b)).tail
    else l
  | [] => l

/-- `darkenColor(color, percent)` from the source. -/
def darkenColor (color : String) (percent : Nat) : String :=
  ⟨darkenColorCore color.data percent⟩

/-- Two lowercase hex digits of a byte, as `toString(16)` renders them. -/
def hexByte (n : Nat) : List Char :=
  [Nat.digitChar (n / 16), Nat.digitChar (n % 16)]

/-- The `#RRGGBB` string with the given channel bytes. -/
def mkHexColor (r g b : Nat) : String :=
  ⟨'#' :: (hexByte r ++ hexByte g ++ hexByte b)⟩

/-- A valid `#RRGGBB` color: `#` followed by exactly six hex digits. -/
def isValidHexColor (s : String) : Bool :=
  match s.data with
  | '#' :: cs => cs.length == 6 && cs.all isHexDig
  | _ => false

/-- The 24-bit value encoded by a `#RRGGBB` string. -/
def hexColorValue (s : String) : Nat :=
  (jsParseIntHexList s.data.tail).getD 0

/-! ## DOM model: inline styles and class lists -/

/-- One inline CSS declaration: property name, value, important flag. -/
abbrev StyleDecl := String × String × Bool

/-- CSSOM `setProperty` / property assignment ("set a CSS declaration"):
if a declaration for the property exists, its value AND important flag are
replaced, otherwise the declaration is appended.  In particular a later
`setProperty(p, v)` without priority replaces an earlier
`setProperty(p, v', "important")`. -/
def setStyleProp (l : List StyleDecl) (name v : String) (imp : Bool) : List StyleDecl :=
  match l with
  | [] => [(name, v, imp)]
  | (n', v', i') :: rest =>
    if n' = name then (name, v, imp) :: rest
    else (n', v', i') :: setStyleProp rest name v imp

/-- The declaration currently in force for a property (value, important). -/
def getStyleProp (l : List StyleDecl) (name : String) : Option (String × Bool) :=
  match l with
  | [] => none
  | (n', v', i') :: rest => if n' = name then some (v', i') else getStyleProp rest name

/-- `DOMTokenList.add`: appends unless already present. -/
def addClass (cl : List String) (c : String) : List String :=
  if c ∈ cl then cl else cl ++ [c]

/-- `DOMTokenList.remove` of several tokens. -/
def removeClasses (cl : List String) (cs : List String) : List String :=
  cl.filter (fun c => !(cs.contains c))

/-! ## Widget state (the mutable fields of the `iFrameResponsive` class) -/

/-- The `HTMLButtonElement` this.button, once created. -/
structure ButtonState where
  textContent : String
  classList : List String
  style : List StyleDecl
  /-- whether the click handler is registered on the element -/
  clickAttached : Bool
deriving DecidableEq

/-- The overlay `HTMLDivElement` this.iframeContainer, once created.
Its `classList` only ever holds the class `"show"`, modelled as a flag; its
height (set by `setDynamicHeight`) is viewport-derived and not modelled, as no
specified behaviour depends on its value. -/
structure ContainerState where
  /-- whether the class `"show"` is present on the overlay's classList -/
  showOverlay : Bool
  width : String
  /-- attached under `document.body` until `destroy` removes it -/
  inDom : Bool
deriving DecidableEq

/-- The `HTMLIFrameElement` this.iframe, once created. -/
structure IframeState where
  src : String
deriving DecidableEq

/-- The mutable fields of the control instance.  DOM handles are `none`
before `createUI` runs (JS `undefined`).  `originalButtonText` is likewise
unassigned before the first `updateView`; it is modelled as `""`, which no
operation reads before assigning it. -/
structure WidgetState where
  isInitialized : Bool
  isIframeOpen : Bool
  originalButtonText : String
  button : Option ButtonState
  iframeContainer : Option ContainerState
  iframe : Option IframeState
  /-- whether this.buttonClickHandler has been assigned -/
  clickHandlerDefined : Bool
  /-- whether the window 'resize' listener (this.setDynamicHeight) is attached;
  `addEventListener` with the same listener is idempotent, so a flag suffices -/
  resizeAttached : Bool
deriving DecidableEq

/-- State produced by the constructor. -/
def initState : WidgetState :=
  { isInitialized := false
    isIframeOpen := false
    originalButtonText := ""
    button := none
    iframeContainer := none
    iframe := none
    clickHandlerDefined := false
    resizeAttached := false }

/-- The `.raw` string parameters of the control's property bag (`IInputs`);
`none` models a `null` raw value. -/
structure Inputs where
  targetUrl : Option String := none
  buttonText : Option String := none
  buttonSize : Option String := none
  buttonWidth : Option String := none
  buttonHeight : Option String := none
  buttonColor : Option String := none
  buttonTextColor : Option String := none
  buttonFontSize : Option String := none
  buttonFontFamily : Option String := none
  buttonBorderWidth : Option String := none
  buttonBorderStyle : Option String := none
  buttonBorderColor : Option String := none
  buttonBorderRadius : Option String := none
  buttonCustomStyle : Option String := none
  iframeWidth : Option String := none
deriving DecidableEq

/-! ## Custom style parsing (lines 262-272) -/

/-- The pairs that the custom-style loop actually applies: the string is split
on `';'`, each segment is split on `':'`, ALL parts are trimmed
(`.map(s => s.trim())`), destructuring keeps the first two parts as
`property` and `value` (anything after a second `':'` is dropped), and the
pair is applied only when both are non-empty (truthy). -/
def parseCustomStyle (cs : String) : List (String × String) :=
  (splitOnChar ';' cs.data).filterMap fun seg =>
    match (splitOnChar ':' seg).map trimChars with
    | p :: v :: _ => if p ≠ [] ∧ v ≠ [] then some (⟨p⟩, ⟨v⟩) else none
    | _ => none

/-- The spec's reading of the same loop: each segment is split on the FIRST
`':'` only, so the value keeps any further colons.  Kept for comparison with
`parseCustomStyle`; the two differ on segments containing two colons. -/
def parseCustomStyleFirstColon (cs : String) : List (String × String) :=
  (splitOnChar ';' cs.data).filterMap fun seg =>
    match splitOnChar ':' seg with
    | [_] => none
    | p :: rest =>
      let pt := trimChars p
      let vt := trimChars (List.intercalate [':'] rest)
      if pt ≠ [] ∧ vt ≠ [] then some (⟨pt⟩, ⟨vt⟩) else none
    | [] => none

/-! ## `applyButtonStyling` (lines 167-273) -/

/-- `if (x) { this.button.style.<name> = x; }` for an optional parameter:
a truthy (non-null, non-empty) value is assigned, without priority. -/
def maybeSet (o : Option String) (name : String) (l : List StyleDecl) : List StyleDecl :=
  match o with
  | some v => if v ≠ "" then setStyleProp l name v false else l
  | none => l

/-- The `buttonSize` switch: size keywords add a fixed class; an unmatched
keyword containing `"px"` is applied as padding. Returns the updated class
list and style list. -/
def applySizeBlock (o : Option String) (cl : List String) (l : List StyleDecl) :
    List String × List StyleDecl :=
  match o with
  | none => (cl, l)
  | some sz0 =>
    let sz : String := ⟨lowerChars sz0.data⟩
    if sz = "" then (cl, l)
    else if sz = "small" ∨ sz = "s" then (addClass cl "size-small", l)
    else if sz = "medium" ∨ sz = "m" then (addClass cl "size-medium", l)
    else if sz = "large" ∨ sz = "l" then (addClass cl "size-large", l)
    else if sz = "extra-large" ∨ sz = "xl" then (addClass cl "size-extra-large", l)
    else if includesPx sz.data then (cl, setStyleProp l "padding" sz false)
    else (cl, l)

/-- The `buttonColor` block: a truthy color is assigned as background and its
`darkenColor(c, 20)` image is stored in the `--hover-color` custom property. -/
def applyColorBlock (o : Option String) (l : List StyleDecl) : List StyleDecl :=
  match o with
  | some v =>
    if v ≠ "" then
      setStyleProp (setStyleProp l "background-color" v false)
        "--hover-color" (darkenColor v 20) false
    else l
  | none => l

/-- The custom-style block: a truthy custom-style string has its parsed pairs
applied in order, each without priority. -/
def applyCustomBlock (o : Option String) (l : List StyleDecl) : List StyleDecl :=
  match o with
  | some cs =>
    if cs ≠ "" then
      (parseCustomStyle cs).foldl (fun acc pv => setStyleProp acc pv.1 pv.2 false) l
    else l
  | none => l

/-- `applyButtonStyling(context)`: returns without effect when the button does
not exist yet; otherwise removes the four size classes, runs the size switch,
forces width and height (defaulted to `"100px"`/`"40px"`) with `"important"`
priority when their trimmed value is non-empty, conditionally assigns
background color (plus the `--hover-color` custom property derived with
`darkenColor(c, 20)`), text color, font, border properties, and finally
applies the custom-style pairs without priority. -/
def applyButtonStyling (c : Inputs) (st : WidgetState) : WidgetState :=
  match st.button with
  | none => st
  | some b =>
    let cl0 := removeClasses b.classList
      ["size-small", "size-medium", "size-large", "size-extra-large"]
    let szr := applySizeBlock c.buttonSize cl0 b.style
    let w := jsOr c.buttonWidth "100px"
    let h := jsOr c.buttonHeight "40px"
    let l := if w ≠ "" ∧ (⟨trimChars w.data⟩ : String) ≠ "" then setStyleProp szr.2 "width" w true else szr.2
    let l := if h ≠ "" ∧ (⟨trimChars h.data⟩ : String) ≠ "" then setStyleProp l "height" h true else l
    let l := applyColorBlock c.buttonColor l
    let l := maybeSet c.buttonTextColor "color" l
    let l := maybeSet c.buttonFontSize "font-size" l
    let l := maybeSet c.buttonFontFamily "font-family" l
    let l := maybeSet c.buttonBorderWidth "border-width" l
    let l := maybeSet c.buttonBorderStyle "border-style" l
    let l := maybeSet c.buttonBorderColor "border-color" l
    let l := maybeSet c.buttonBorderRadius "border-radius" l
    let l := applyCustomBlock c.buttonCustomStyle l
    { st with button := some { b with classList := szr.1, style := l } }

/-! ## Lifecycle operations -/

/-- `createUI(context)` (lines 66-103): creates the button (label from
`buttonText` with default `"Agent1"`, three inline style assignments),
registers the click handler, creates the initially hidden overlay container
(width from `iframeWidth`, default `"50%"`) holding an empty iframe, and
appends the overlay to `document.body`.  The styling of the host container div
(class name, `display:contents`, zero margin/padding) has no further
behavioural role and is not tracked. -/
def createUI (c : Inputs) (st : WidgetState) : WidgetState :=
  { st with
    originalButtonText := jsOr c.buttonText "Agent1"
    button := some
      { textContent := jsOr c.buttonText "Agent1"
        classList := ["iciframe-button"]
        style := [("display", "flex", false), ("visibility", "visible", false),
                  ("opacity", "1", false)]
        clickAttached := true }
    clickHandlerDefined := true
    iframeContainer := some
      { showOverlay := false
        width := jsOr c.iframeWidth "50%"
        inDom := true }
    iframe := some { src := "" } }

/-- `if (this.button) { this.button.textContent = t; }`. -/
def setButtonText (st : WidgetState) (t : String) : WidgetState :=
  match st.button with
  | some b => { st with button := some { b with textContent := t } }
  | none => st

/-- `if (this.iframeContainer) { this.iframeContainer.style.width = iw; }`. -/
def setContainerWidth (st : WidgetState) (iw : String) : WidgetState :=
  match st.iframeContainer with
  | some ic => { st with iframeContainer := some { ic with width := iw } }
  | none => st

/-- `updateView(context)` (lines 35-64): creates the UI once, stores the
current button text in `originalButtonText`, re-renders the label from the
open/closed state, applies the button styling, and updates the overlay width. -/
def updateView (c : Inputs) (st : WidgetState) : WidgetState :=
  let st := if st.isInitialized then st else { createUI c st with isInitialized := true }
  let btnText := jsOr c.buttonText "Agent1"
  let st := { st with originalButtonText := btnText }
  let st := setButtonText st (if st.isIframeOpen then "Close" else btnText)
  let st := applyButtonStyling c st
  setContainerWidth st (jsOr c.iframeWidth "50%")

/-- Modelled from the spec: `new URL(url)` succeeding, i.e. the string parsing
as an absolute URL.  The host's WHATWG URL parser is not part of this
repository; following the spec's "if parsing as absolute URL fails", success
is modelled as the presence of a scheme — an ASCII letter followed by
letters, digits, `'+'`, `'-'` or `'.'`, terminated by `':'`. -/
def schemeTail : List Char → Bool
  | [] => false
  | c :: cs =>
    if c = ':' then true
    else if c.isAlphanum || c = '+' || c = '-' || c = '.' then schemeTail cs
    else false

/-- Modelled from the spec: whether `new URL(url)` succeeds (see `schemeTail`). -/
def urlParseOk (s : String) : Bool :=
  match s.data with
  | c :: cs => c.isAlpha && schemeTail cs
  | [] => false

/-- The URL normalisation inside `openIframe` (lines 121-129): when parsing
fails and the string has neither an `http://` nor an `https://` prefix,
`https://` is prepended; otherwise the string is kept. -/
def normalizeUrl (url : String) : String :=
  if urlParseOk url then url
  else if !(jsStartsWith url "http://") && !(jsStartsWith url "https://") then
    "https://" ++ url
  else url

/-- Dereference of a DOM handle the source uses without a guard: on an
uninitialized widget the JS would throw a TypeError. -/
def deref : Option α → Except String α
  | some a => .ok a
  | none => .error "TypeError: undefined"

/-- `openIframe(url)` (lines 120-148): normalises the URL, sets the iframe
source, shows the overlay, marks the widget open, sets the label to
`"Close"`, and attaches the window-resize listener.  The scheduled one-shot
`setTimeout(setDynamicHeight, 100)` only recomputes viewport-derived heights,
which are not modelled. -/
def openIframe (url : String) (st : WidgetState) : Except String WidgetState := do
  let url := normalizeUrl url
  let ifr ← deref st.iframe
  let st := { st with iframe := some { ifr with src := url } }
  let ic ← deref st.iframeContainer
  let st := { st with iframeContainer := some { ic with showOverlay := true },
                      isIframeOpen := true }
  let b ← deref st.button
  let st := { st with button := some { b with textContent := "Close" } }
  return { st with resizeAttached := true }

/-- `closeIframe(context)` (lines 150-165): hides the overlay, marks the
widget closed, clears the iframe source, detaches the window-resize listener,
and (behind a guard) restores the label to `originalButtonText`. -/
def closeIframe (st : WidgetState) : Except String WidgetState := do
  let ic ← deref st.iframeContainer
  let st := { st with iframeContainer := some { ic with showOverlay := false },
                      isIframeOpen := false }
  let ifr ← deref st.iframe
  let st := { st with iframe := some { ifr with src := "" } }
  let st := { st with resizeAttached := false }
  let st := match st.button with
    | some b => { st with button := some { b with textContent := st.originalButtonText } }
    | none => st
  return st

/-- `toggleIframe(context)` (lines 105-118): a falsy `targetUrl` raises the
blocking alert and returns with no state change — note that this happens
BEFORE the open/closed test; otherwise the widget closes when open and opens
when closed.  The boolean records whether the alert was shown. -/
def toggleIframe (c : Inputs) (st : WidgetState) : Except String (WidgetState × Bool) :=
  if jsTruthy c.targetUrl = false then .ok (st, true)
  else if st.isIframeOpen then (closeIframe st).map (fun s => (s, false))
  else (openIframe (c.targetUrl.getD "") st).map (fun s => (s, false))

/-- `destroy()` (lines 313-326): removes the click listener when both the
button and the stored handler exist, detaches the window-resize listener, and
removes the overlay from its parent when attached.  Every property access is
behind a guard, hence the `Except` result is always `ok`. -/
def destroy (st : WidgetState) : Except String WidgetState := do
  let st := match st.button, st.clickHandlerDefined with
    | some b, true => { st with button := some { b with clickAttached := false } }
    | _, _ => st
  let st := { st with resizeAttached := false }
  let st := match st.iframeContainer with
    | some ic =>
      if ic.inDom then { st with iframeContainer := some { ic with inDom := false } }
      else st
    | none => st
  return st

/-! ## The step relation -/

/-- The operations the host or the user can trigger on the widget. -/
inductive Op where
  | updateView (c : Inputs)
  | toggle (c : Inputs)
  | destroy
deriving DecidableEq

/-- One step of the widget; a toggle or teardown that would throw (possible
only on an uninitialized widget, which the DOM never produces since the click
handler exists only after `createUI`) leaves the state unchanged. -/
def stepFn (st : WidgetState) : Op → WidgetState
  | .updateView c => updateView c st
  | .toggle c =>
    match toggleIframe c st with
    | .ok (s, _) => s
    | .error _ => st
  | .destroy =>
    match destroy st with
    | .ok s => s
    | .error _ => st

/-- Run a sequence of operations from a given state. -/
def runFrom (st : WidgetState) : List Op → WidgetState
  | [] => st
  | op :: rest => runFrom (stepFn st op) rest

/-- The state after a sequence of operations on a fresh widget. -/
def runOps (l : List Op) : WidgetState :=
  runFrom initState l

/-- A state the widget can actually be in. -/
def Reachable (st : WidgetState) : Prop :=
  ∃ l : List Op, runOps l = st

/-- Whether an operation sequence contains a teardown. -/
def hasDestroy : List Op → Bool
  | [] => false
  | .destroy :: _ => true
  | _ :: rest => hasDestroy rest

/-- The label invariant: the button (once it exists) reads `"Close"` exactly
when the widget is open, and `originalButtonText` otherwise. -/
def labelOk (st : WidgetState) : Bool :=
  match st.button with
  | some b => b.textContent == (if st.isIframeOpen then "Close" else st.originalButtonText)
  | none => true

/-! ## darkenColor lemmas -/

theorem hexVal_digitChar : ∀ d, d < 16 → hexDigitVal (Nat.digitChar d) = some d := by decide

theorem isHexDig_digitChar (d : Nat) (h : d < 16) : isHexDig (Nat.digitChar d) = true := by
  simp [isHexDig, hexVal_digitChar d h]

theorem hexVal_lt (c : Char) (h : isHexDig c = true) : (hexDigitVal c).getD 0 < 16 := by
  unfold isHexDig at h
  unfold hexDigitVal at h ⊢
  split_ifs at h ⊢ <;> simp_all <;> omega

theorem toString16Aux_irrel : ∀ f1 f2 n, n < f1 → n < f2 →
    toString16Aux f1 n = toString16Aux f2 n := by
  intro f1
  induction f1 with
  | zero => intro f2 n h1 h2; omega
  | succ f ih =>
    intro f2 n h1 h2
    cases f2 with
    | zero => omega
    | succ f2' =>
      by_cases hn : n < 16
      · simp [toString16Aux, hn]
      · simp only [toString16Aux, if_neg hn]
        rw [ih f2' (n / 16) (by omega) (by omega)]

theorem toString16_step (n : Nat) (h : 16 ≤ n) :
    toString16 n = toString16 (n / 16) ++ [Nat.digitChar (n % 16)] := by
  unfold toString16
  rw [show toString16Aux (n + 1) n
      = if n < 16 then [Nat.digitChar n]
        else toString16Aux n (n / 16) ++ [Nat.digitChar (n % 16)] from rfl]
  rw [if_neg (by omega)]
  rw [toString16Aux_irrel n (n / 16 + 1) (n / 16) (by omega) (by omega)]

theorem toString16_base (n : Nat) (h : n < 16) : toString16 n = [Nat.digitChar n] := by
  unfold toString16
  simp [toString16Aux, h]

theorem toString16_hex7 (a b c : Nat) (ha : a < 256) (hb : b < 256) (hc : c < 256) :
    toString16 (16777216 + a * 65536 + b * 256 + c) =
      '1' :: (hexByte a ++ hexByte b ++ hexByte c) := by
  rw [toString16_step _ (by omega)]
  rw [show (16777216 + a * 65536 + b * 256 + c) / 16
        = 1048576 + a * 4096 + b * 16 + c / 16 by omega,
      show (16777216 + a * 65536 + b * 256 + c) % 16 = c % 16 by omega]
  rw [toString16_step _ (by omega)]
  rw [show (1048576 + a * 4096 + b * 16 + c / 16) / 16 = 65536 + a * 256 + b by omega,
      show (1048576 + a * 4096 + b * 16 + c / 16) % 16 = c / 16 by omega]
  rw [toString16_step _ (by omega)]
  rw [show (65536 + a * 256 + b) / 16 = 4096 + a * 16 + b / 16 by omega,
      show (65536 + a * 256 + b) % 16 = b % 16 by omega]
  rw [toString16_step _ (by omega)]
  rw [show (4096 + a * 16 + b / 16) / 16 = 256 + a by omega,
      show (4096 + a * 16 + b / 16) % 16 = b / 16 by omega]
  rw [toString16_step _ (by omega)]
  rw [show (256 + a) / 16 = 16 + a / 16 by omega,
      show (256 + a) % 16 = a % 16 by omega]
  rw [toString16_step _ (by omega)]
  rw [show (16 + a / 16) / 16 = 1 by omega,
      show (16 + a / 16) % 16 = a / 16 by omega]
  rw [toString16_base 1 (by omega)]
  simp [hexByte]
  decide

theorem jsParseIntHexList_six (c1 c2 c3 c4 c5 c6 : Char)
    (h1 : isHexDig c1 = true) (h2 : isHexDig c2 = true) (h3 : isHexDig c3 = true)
    (h4 : isHexDig c4 = true) (h5 : isHexDig c5 = true) (h6 : isHexDig c6 = true) :
    jsParseIntHexList [c1, c2, c3, c4, c5, c6] =
      some ((hexDigitVal c1).getD 0 * 1048576 + (hexDigitVal c2).getD 0 * 65536
        + (hexDigitVal c3).getD 0 * 4096 + (hexDigitVal c4).getD 0 * 256
        + (hexDigitVal c5).getD 0 * 16 + (hexDigitVal c6).getD 0) := by
  simp [jsParseIntHexList, List.takeWhile, h1, h2, h3, h4, h5, h6, List.foldl]
  omega

theorem int_fdiv_cast (m k : Nat) : ((m : Int)).fdiv (k : Int) = ((m / k : Nat) : Int) :=
  (Int.ofNat_fdiv m k).symm

theorem int_emod_cast (m k : Nat) : ((m : Int)).emod (k : Int) = ((m % k : Nat) : Int) :=
  (Int.ofNat_emod m k).symm

theorem toInt32_small (v : Nat) (h : v < 2147483648) : toInt32 v = (v : Int) := by
  unfold toInt32
  rw [Nat.mod_eq_of_lt (by omega)]
  simp [h]

theorem clampCh_cast (k : Nat) : clampCh ((k : Int)) = min k 255 := by
  unfold clampCh
  split_ifs with h1 h2 <;> omega

theorem exists_len6 {α : Type} : ∀ l : List α, l.length = 6 →
    ∃ a b c d e f, l = [a, b, c, d, e, f] := by
  intro l h
  cases l with
  | nil => simp at h
  | cons a l =>
  cases l with
  | nil => simp at h
  | cons b l =>
  cases l with
  | nil => simp at h
  | cons c l =>
  cases l with
  | nil => simp at h
  | cons d l =>
  cases l with
  | nil => simp at h
  | cons e l =>
  cases l with
  | nil => simp at h
  | cons f l =>
  cases l with
  | nil => exact ⟨a, b, c, d, e, f, rfl⟩
  | cons g l => simp at h

theorem valid_hex_data (s : String) (hs : isValidHexColor s = true) :
    ∃ c1 c2 c3 c4 c5 c6, s.data = ['#', c1, c2, c3, c4, c5, c6] ∧
      isHexDig c1 = true ∧ isHexDig c2 = true ∧ isHexDig c3 = true ∧
      isHexDig c4 = true ∧ isHexDig c5 = true ∧ isHexDig c6 = true := by
  unfold isValidHexColor at hs
  split at hs
  next cs heq =>
    simp only [Bool.and_eq_true, beq_iff_eq] at hs
    obtain ⟨hlen, hall⟩ := hs
    obtain ⟨c1, c2, c3, c4, c5, c6, rfl⟩ := exists_len6 cs hlen
    simp only [List.all_cons, List.all_nil, Bool.and_eq_true, Bool.and_true] at hall
    exact ⟨c1, c2, c3, c4, c5, c6, heq, hall.1, hall.2.1, hall.2.2.1,
      hall.2.2.2.1, hall.2.2.2.2.1, hall.2.2.2.2.2⟩
  next => simp at hs

theorem darkenChannels (v amtN : Nat) (hv : v < 2147483648) :
    clampCh ((toInt32 v).fdiv 65536 + (amtN : Int)) = min (v / 65536 + amtN) 255
    ∧ clampCh (((toInt32 v).fdiv 256).emod 256 + (amtN : Int)) = min (v / 256 % 256 + amtN) 255
    ∧ clampCh ((toInt32 v).emod 256 + (amtN : Int)) = min (v % 256 + amtN) 255 := by
  rw [toInt32_small v hv]
  refine ⟨?_, ?_, ?_⟩
  · rw [show ((v : Int)).fdiv 65536 = ((v / 65536 : Nat) : Int) from (Int.ofNat_fdiv v 65536).symm,
        show ((v / 65536 : Nat) : Int) + (amtN : Int) = ((v / 65536 + amtN : Nat) : Int) by push_cast; ring,
        clampCh_cast]
  · rw [show ((v : Int)).fdiv 256 = ((v / 256 : Nat) : Int) from (Int.ofNat_fdiv v 256).symm,
        show ((v / 256 : Nat) : Int).emod 256 = ((v / 256 % 256 : Nat) : Int) from (Int.ofNat_emod (v / 256) 256).symm,
        show ((v / 256 % 256 : Nat) : Int) + (amtN : Int) = ((v / 256 % 256 + amtN : Nat) : Int) by push_cast; ring,
        clampCh_cast]
  · rw [show ((v : Int)).emod 256 = ((v % 256 : Nat) : Int) from (Int.ofNat_emod v 256).symm,
        show ((v % 256 : Nat) : Int) + (amtN : Int) = ((v % 256 + amtN : Nat) : Int) by push_cast; ring,
        clampCh_cast]

theorem mkHexColor_valid (r g b : Nat) (hr : r < 256) (hg : g < 256) (hb : b < 256) :
    isValidHexColor (mkHexColor r g b) = true := by
  unfold isValidHexColor mkHexColor hexByte
  simp [isHexDig_digitChar _ (show r / 16 < 16 by omega),
        isHexDig_digitChar _ (show r % 16 < 16 by omega),
        isHexDig_digitChar _ (show g / 16 < 16 by omega),
        isHexDig_digitChar _ (show g % 16 < 16 by omega),
        isHexDig_digitChar _ (show b / 16 < 16 by omega),
        isHexDig_digitChar _ (show b % 16 < 16 by omega)]

set_option maxRecDepth 8000 in
/-- C4 (amended): for every valid #RRGGBB input and percent in [0,100],
darkenColor returns the valid #RRGGBB string whose each channel is
clamp(inputChannel + amt, 0, 255) (with nonnegative channels the clamp is a
min with 255), where amt is Math.round of the IEEE-754 double product
2.55 * percent; amt equals the exact round(2.55 * percent) everywhere on
[0,100] except at percent = 50 and 90, where the double product falls just
below the half-way point and amt is one less.  Hence each output channel is
at least the corresponding input channel; and
darkenColor("#000000", 20) = "#333333".  (The unamended claim forced
channel = clamp(in + round(2.55 * percent), 0, 255) with the exact round,
which the program violates at percent = 50 and 90 — see the
counterexample.) -/
theorem darkenColor_on_valid_hex (s : String) (p : Nat)
    (hs : isValidHexColor s = true) (hp : p ≤ 100) :
    darkenColor s p =
      mkHexColor (min (hexColorValue s / 65536 + jsRound255 p) 255)
        (min (hexColorValue s / 256 % 256 + jsRound255 p) 255)
        (min (hexColorValue s % 256 + jsRound255 p) 255)
    ∧ isValidHexColor (darkenColor s p) = true
    ∧ hexColorValue s / 65536 ≤ min (hexColorValue s / 65536 + jsRound255 p) 255
    ∧ hexColorValue s / 256 % 256 ≤ min (hexColorValue s / 256 % 256 + jsRound255 p) 255
    ∧ hexColorValue s % 256 ≤ min (hexColorValue s % 256 + jsRound255 p) 255
    ∧ (∀ q, q ≤ 100 →
        jsRound255 q = if q = 50 ∨ q = 90 then (51 * q + 10) / 20 - 1 else (51 * q + 10) / 20)
    ∧ darkenColor "#000000" 20 = "#333333" := by
  obtain ⟨c1, c2, c3, c4, c5, c6, hd, h1, h2, h3, h4, h5, h6⟩ := valid_hex_data s hs
  have b1 := hexVal_lt c1 h1
  have b2 := hexVal_lt c2 h2
  have b3 := hexVal_lt c3 h3
  have b4 := hexVal_lt c4 h4
  have b5 := hexVal_lt c5 h5
  have b6 := hexVal_lt c6 h6
  have hvv : hexColorValue s = (hexDigitVal c1).getD 0 * 1048576 + (hexDigitVal c2).getD 0 * 65536
      + (hexDigitVal c3).getD 0 * 4096 + (hexDigitVal c4).getD 0 * 256
      + (hexDigitVal c5).getD 0 * 16 + (hexDigitVal c6).getD 0 := by
    unfold hexColorValue
    rw [hd]
    simp only [List.tail_cons]
    rw [jsParseIntHexList_six c1 c2 c3 c4 c5 c6 h1 h2 h3 h4 h5 h6]
    rfl
  rw [hvv]
  have hlt : (hexDigitVal c1).getD 0 * 1048576 + (hexDigitVal c2).getD 0 * 65536
      + (hexDigitVal c3).getD 0 * 4096 + (hexDigitVal c4).getD 0 * 256
      + (hexDigitVal c5).getD 0 * 16 + (hexDigitVal c6).getD 0 < 2147483648 := by omega
  have hmain : darkenColor s p =
      mkHexColor
        (min (((hexDigitVal c1).getD 0 * 1048576 + (hexDigitVal c2).getD 0 * 65536
          + (hexDigitVal c3).getD 0 * 4096 + (hexDigitVal c4).getD 0 * 256
          + (hexDigitVal c5).getD 0 * 16 + (hexDigitVal c6).getD 0) / 65536 + jsRound255 p) 255)
        (min (((hexDigitVal c1).getD 0 * 1048576 + (hexDigitVal c2).getD 0 * 65536
          + (hexDigitVal c3).getD 0 * 4096 + (hexDigitVal c4).getD 0 * 256
          + (hexDigitVal c5).getD 0 * 16 + (hexDigitVal c6).getD 0) / 256 % 256 + jsRound255 p) 255)
        (min (((hexDigitVal c1).getD 0 * 1048576 + (hexDigitVal c2).getD 0 * 65536
          + (hexDigitVal c3).getD 0 * 4096 + (hexDigitVal c4).getD 0 * 256
          + (hexDigitVal c5).getD 0 * 16 + (hexDigitVal c6).getD 0) % 256 + jsRound255 p) 255) := by
    unfold darkenColor
    rw [hd]
    simp only [darkenColorCore, if_pos rfl]
    rw [jsParseIntHexList_six c1 c2 c3 c4 c5 c6 h1 h2 h3 h4 h5 h6]
    simp only [Option.getD_some]
    rw [(darkenChannels _ (jsRound255 p) hlt).1,
        (darkenChannels _ (jsRound255 p) hlt).2.1,
        (darkenChannels _ (jsRound255 p) hlt).2.2]
    rw [toString16_hex7 _ _ _ (by omega) (by omega) (by omega)]
    rw [List.tail_cons]
    rfl
  refine ⟨hmain, ?_, by omega, by omega, by omega, by decide, by decide⟩
  rw [hmain]
  exact mkHexColor_valid _ _ _ (by omega) (by omega) (by omega)

/-- C5 (amended): every input string that does not BEGIN WITH '#' is
returned unchanged by darkenColor, for every percent, and no error is raised
(the function is total).  (The unamended claim promised this for every
invalid hex color; the code only tests the leading '#', so invalid inputs
such as "#zz" are transformed — see the counterexample.) -/
theorem darkenColor_no_hash (s : String) (p : Nat) (h : s.data.head? ≠ some '#') :
    darkenColor s p = s := by
  have hcore : darkenColorCore s.data p = s.data := by
    cases hd : s.data with
    | nil => rfl
    | cons c rest =>
      have hc : c ≠ '#' := by
        rw [hd] at h; simpa using h
      simp [darkenColorCore, hc]
  unfold darkenColor
  rw [hcore]

/-- Witness for C5 (amended) at the input "not-a-color". -/
theorem darkenColor_no_hash_inst :
    ("not-a-color" : String).data.head? ≠ some '#' ∧ darkenColor "not-a-color" 20 = "not-a-color" :=
  ⟨by decide, darkenColor_no_hash "not-a-color" 20 (by decide)⟩

/-- Counterexample to C5 as stated: "#zz" is not a valid hex color, yet
darkenColor("#zz", 20) returns "#333333" (parseInt gives NaN, the bitwise
channel reads coerce it to 0), not the input unchanged. -/
theorem darkenColor_invalid_hex_changed :
    isValidHexColor "#zz" = false ∧ darkenColor "#zz" 20 = "#333333" ∧ ("#333333" : String) ≠ "#zz" := by
  refine ⟨by decide, by decide, by decide⟩

/-- Witness for C4 at the mixed-case input "#1a2B3c" and percent 20. -/
theorem darkenColor_on_valid_hex_inst :
    isValidHexColor "#1a2B3c" = true ∧
    darkenColor "#1a2B3c" 20 = mkHexColor 77 94 111 ∧
    isValidHexColor (darkenColor "#1a2B3c" 20) = true := by
  refine ⟨by decide, ?_, ((darkenColor_on_valid_hex "#1a2B3c" 20 (by decide) (by decide)).2.1)⟩
  have h := (darkenColor_on_valid_hex "#1a2B3c" 20 (by decide) (by decide)).1
  rw [h]
  decide

/-- Counterexample to C4 as stated: at percent 50 the IEEE-754 double product
2.55 * 50 is 127.49999999999999, just below the half-way point, so the
program adds 127 to each channel while the claim's exact
round(2.55 * 50) = 128 demands 128: darkenColor("#000000", 50) is "#7f7f7f",
not the "#808080" the claimed per-channel equality forces (likewise the
amount at percent 90 is 229, not 230). -/
theorem darkenColor_half_case_diverges :
    jsRound255 50 = 127
    ∧ (51 * 50 + 10) / 20 = 128
    ∧ isValidHexColor "#000000" = true
    ∧ darkenColor "#000000" 50 = "#7f7f7f"
    ∧ darkenColor "#000000" 50
        ≠ mkHexColor (min (hexColorValue "#000000" / 65536 + (51 * 50 + 10) / 20) 255)
            (min (hexColorValue "#000000" / 256 % 256 + (51 * 50 + 10) / 20) 255)
            (min (hexColorValue "#000000" % 256 + (51 * 50 + 10) / 20) 255)
    ∧ jsRound255 90 = 229
    ∧ (51 * 90 + 10) / 20 = 230 := by decide

/-! ## Example configurations and states -/

/-- A configuration where only the target URL is set. -/
def cfgUrl : Inputs := { targetUrl := some "example.com" }

/-- The empty configuration: every raw parameter is null. -/
def cfgNone : Inputs := {}

/-- A reachable open state: one refresh (which builds the UI), one toggle. -/
def openedState : WidgetState := runOps [Op.updateView cfgUrl, Op.toggle cfgUrl]

/-- A reachable closed-but-initialized state. -/
def refreshedState : WidgetState := runOps [Op.updateView cfgUrl]

/-- C2: for every configuration whose targetUrl is empty or missing, calling
toggle while the widget is closed shows the blocking alert and aborts with no
state mutated: the returned state is exactly the input state (isOpen still
false, label unchanged, iframe source unchanged). -/
theorem toggle_empty_url_alerts_no_mutation (c : Inputs) (st : WidgetState)
    (hurl : jsTruthy c.targetUrl = false) (_hclosed : st.isIframeOpen = false) :
    toggleIframe c st = .ok (st, true) := by
  simp [toggleIframe, hurl]

/-- Witness for C2 at the empty configuration and the fresh widget. -/
theorem toggle_empty_url_alerts_no_mutation_inst :
    jsTruthy cfgNone.targetUrl = false ∧ initState.isIframeOpen = false ∧
      toggleIframe cfgNone initState = .ok (initState, true) :=
  ⟨by decide, by decide, toggle_empty_url_alerts_no_mutation cfgNone initState (by decide) (by decide)⟩

/-- C1 (amended): for every configuration whose targetUrl is NON-EMPTY,
calling toggle while isOpen is true closes the widget: no alert, the overlay
is hidden, the iframe source is cleared to the empty string, the button label
is restored to originalButtonText, the resize listener is detached, and
isOpen becomes false.  (The unamended claim quantified over every
configuration; the targetUrl check runs first, so with an empty targetUrl the
close never happens — see the counterexample.) -/
theorem toggle_while_open_with_url_closes (c : Inputs) (st : WidgetState)
    (hurl : jsTruthy c.targetUrl = true) (hopen : st.isIframeOpen = true)
    (hic0 : st.iframeContainer.isSome = true) (hif0 : st.iframe.isSome = true) :
    ∃ s', toggleIframe c st = .ok (s', false)
      ∧ s'.isIframeOpen = false
      ∧ s'.resizeAttached = false
      ∧ s'.iframeContainer.all (fun ic => ic.showOverlay == false) = true
      ∧ s'.iframe.all (fun f => f.src == "") = true
      ∧ s'.button.all (fun b => b.textContent == st.originalButtonText) = true := by
  obtain ⟨ic, hic⟩ := Option.isSome_iff_exists.mp hic0
  obtain ⟨ifr, hif⟩ := Option.isSome_iff_exists.mp hif0
  refine ⟨{ st with iframeContainer := some { ic with showOverlay := false },
                    isIframeOpen := false,
                    iframe := some { ifr with src := "" },
                    resizeAttached := false,
                    button := st.button.map
                      (fun b => { b with textContent := st.originalButtonText }) },
          ?_, by simp, by simp, by simp, by simp, ?_⟩
  · simp only [toggleIframe, hurl, hopen]
    simp only [closeIframe, deref, hic, hif]
    cases hb : st.button <;> simp [hb, Except.map, Except.bind, Except.pure, pure, Bind.bind]
  · cases hb : st.button <;> simp [hb]

/-- Counterexample to C1 as stated: on the reachable open state, a toggle
with an empty targetUrl alerts and leaves the widget open and unchanged. -/
theorem toggle_open_empty_url_stays_open :
    openedState.isIframeOpen = true ∧
      toggleIframe cfgNone openedState = .ok (openedState, true) :=
  ⟨by decide, rfl⟩

/-- C6: calling toggle while closed with a non-empty targetUrl (on a widget
whose elements exist, i.e. after the first refresh) opens the widget: the
overlay is shown, isOpen becomes true, the label becomes "Close", and the
iframe source is the normalized URL — when the string fails to parse as an
absolute URL and lacks an http:// or https:// prefix, https:// is prepended;
in particular "example.com" normalizes to "https://example.com". -/
theorem toggle_closed_with_url_opens (c : Inputs) (st : WidgetState)
    (hurl : jsTruthy c.targetUrl = true) (hclosed : st.isIframeOpen = false)
    (hic0 : st.iframeContainer.isSome = true) (hif0 : st.iframe.isSome = true)
    (hb0 : st.button.isSome = true) :
    ∃ s', toggleIframe c st = .ok (s', false)
      ∧ s'.isIframeOpen = true
      ∧ s'.resizeAttached = true
      ∧ s'.iframeContainer.all (fun ic => ic.showOverlay == true) = true
      ∧ s'.button.all (fun b => b.textContent == "Close") = true
      ∧ s'.iframe.all (fun f => f.src == normalizeUrl (c.targetUrl.getD "")) = true
      ∧ (∀ u : String, urlParseOk u = false → jsStartsWith u "http://" = false →
          jsStartsWith u "https://" = false → normalizeUrl u = "https://" ++ u)
      ∧ normalizeUrl "example.com" = "https://example.com" := by
  obtain ⟨ic, hic⟩ := Option.isSome_iff_exists.mp hic0
  obtain ⟨ifr, hif⟩ := Option.isSome_iff_exists.mp hif0
  obtain ⟨b, hbb⟩ := Option.isSome_iff_exists.mp hb0
  refine ⟨{ st with iframe := some { ifr with src := normalizeUrl (c.targetUrl.getD "") },
                    iframeContainer := some { ic with showOverlay := true },
                    isIframeOpen := true,
                    button := some { b with textContent := "Close" },
                    resizeAttached := true },
          ?_, by simp, by simp, by simp, by simp, by simp, ?_, by decide⟩
  · simp only [toggleIframe, hurl, hclosed]
    simp only [openIframe, deref, hic, hif, hbb]
    simp [Except.map, Except.bind, Except.pure, pure, Bind.bind]
  · intro u h1 h2 h3
    simp [normalizeUrl, h1, h2, h3]

/-- Witness for C1 (amended) at the concrete reachable open state. -/
theorem toggle_while_open_with_url_closes_inst :
    jsTruthy cfgUrl.targetUrl = true ∧ openedState.isIframeOpen = true ∧
    openedState.iframeContainer.isSome = true ∧ openedState.iframe.isSome = true ∧
    (∃ s', toggleIframe cfgUrl openedState = .ok (s', false)
      ∧ s'.isIframeOpen = false
      ∧ s'.resizeAttached = false
      ∧ s'.iframeContainer.all (fun ic => ic.showOverlay == false) = true
      ∧ s'.iframe.all (fun f => f.src == "") = true
      ∧ s'.button.all (fun b => b.textContent == openedState.originalButtonText) = true) :=
  ⟨by decide, by decide, by decide, by decide,
   toggle_while_open_with_url_closes cfgUrl openedState (by decide) (by decide)
     (by decide) (by decide)⟩

/-- Witness for C6 at the concrete reachable initialized closed state. -/
theorem toggle_closed_with_url_opens_inst :
    jsTruthy cfgUrl.targetUrl = true ∧ refreshedState.isIframeOpen = false ∧
    refreshedState.iframeContainer.isSome = true ∧ refreshedState.iframe.isSome = true ∧
    refreshedState.button.isSome = true ∧
    (∃ s', toggleIframe cfgUrl refreshedState = .ok (s', false)
      ∧ s'.isIframeOpen = true
      ∧ s'.resizeAttached = true
      ∧ s'.iframeContainer.all (fun ic => ic.showOverlay == true) = true
      ∧ s'.button.all (fun b => b.textContent == "Close") = true
      ∧ s'.iframe.all (fun f => f.src == normalizeUrl (cfgUrl.targetUrl.getD "")) = true
      ∧ (∀ u : String, urlParseOk u = false → jsStartsWith u "http://" = false →
          jsStartsWith u "https://" = false → normalizeUrl u = "https://" ++ u)
      ∧ normalizeUrl "example.com" = "https://example.com") :=
  ⟨by decide, by decide, by decide, by decide, by decide,
   toggle_closed_with_url_opens cfgUrl refreshedState (by decide) (by decide)
     (by decide) (by decide) (by decide)⟩

/-- The amended reading of the custom-style loop: each segment is split on
`':'`, the first part is the property and the second the value (parts after a
second `':'` are discarded), both are trimmed, and the pair is applied only
when both are non-empty. -/
def parseCustomStyleTakeTwo (cs : String) : List (String × String) :=
  (splitOnChar ';' cs.data).filterMap fun seg =>
    match splitOnChar ':' seg with
    | p :: v :: _ =>
      if trimChars p ≠ [] ∧ trimChars v ≠ [] then some (⟨trimChars p⟩, ⟨trimChars v⟩) else none
    | _ => none

theorem mkString_eq_empty (l : List Char) : ((⟨l⟩ : String) = "") ↔ l = [] := by
  constructor
  · intro h
    exact congrArg String.data h
  · intro h
    rw [h]

/-- C3 (amended): the custom-style string is split on ';'; each segment is
split on ':' and the FIRST TWO parts are kept as property and value (content
after a second ':' is discarded), both trimmed; every segment with non-empty
property and value is applied (its pair reaches the style, without priority)
and malformed segments are silently skipped without aborting the rest; the
example "color: red; invalid; font-weight:bold" applies color and font-weight
and ignores "invalid".  (The unamended claim said the segment was split on
the FIRST ':' with the value keeping the rest — see the counterexample.) -/
theorem applyCustomStyle_segments :
    (∀ cs : String, parseCustomStyle cs = parseCustomStyleTakeTwo cs)
    ∧ (∀ cs p v, (p, v) ∈ parseCustomStyle cs → p ≠ "" ∧ v ≠ "")
    ∧ parseCustomStyle "color: red; invalid; font-weight:bold" =
        [("color", "red"), ("font-weight", "bold")]
    ∧ (applyButtonStyling { buttonCustomStyle := some "color: red; invalid; font-weight:bold" }
         refreshedState).button.all
        (fun b => getStyleProp b.style "color" == some ("red", false)
          && getStyleProp b.style "font-weight" == some ("bold", false)
          && getStyleProp b.style "invalid" == none) = true := by
  refine ⟨?_, ?_, by decide, by decide⟩
  · intro cs
    unfold parseCustomStyle parseCustomStyleTakeTwo
    congr 1
    funext seg
    cases hsp : splitOnChar ':' seg with
    | nil => rfl
    | cons p t =>
      cases t with
      | nil => rfl
      | cons v t' => rfl
  · intro cs p v hmem
    unfold parseCustomStyle at hmem
    rw [List.mem_filterMap] at hmem
    obtain ⟨seg, _, hseg⟩ := hmem
    split at hseg
    next x pt vt tl hq =>
      split_ifs at hseg with hcond
      have h2 := Option.some.inj hseg
      have hp : (⟨pt⟩ : String) = p := congrArg Prod.fst h2
      have hv : (⟨vt⟩ : String) = v := congrArg Prod.snd h2
      rw [← hp, ← hv]
      exact ⟨fun hh => hcond.1 ((mkString_eq_empty pt).mp hh),
             fun hh => hcond.2 ((mkString_eq_empty vt).mp hh)⟩
    next => simp at hseg

/-! ## Field-preservation lemmas -/

theorem applyButtonStyling_fields (c : Inputs) (st : WidgetState) :
    (applyButtonStyling c st).isInitialized = st.isInitialized
    ∧ (applyButtonStyling c st).isIframeOpen = st.isIframeOpen
    ∧ (applyButtonStyling c st).originalButtonText = st.originalButtonText
    ∧ (applyButtonStyling c st).iframeContainer = st.iframeContainer
    ∧ (applyButtonStyling c st).iframe = st.iframe
    ∧ (applyButtonStyling c st).clickHandlerDefined = st.clickHandlerDefined
    ∧ (applyButtonStyling c st).resizeAttached = st.resizeAttached
    ∧ (applyButtonStyling c st).button.map (fun b => b.textContent)
        = st.button.map (fun b => b.textContent) := by
  cases hb : st.button <;> simp [applyButtonStyling, hb]

theorem labelOk_applyButtonStyling (c : Inputs) (st : WidgetState) :
    labelOk (applyButtonStyling c st) = labelOk st := by
  cases hb : st.button <;> simp [applyButtonStyling, labelOk, hb]

theorem labelOk_setContainerWidth (st : WidgetState) (iw : String) :
    labelOk (setContainerWidth st iw) = labelOk st := by
  cases hic : st.iframeContainer <;> simp [setContainerWidth, labelOk, hic]

theorem setContainerWidth_fields (st : WidgetState) (iw : String) :
    (setContainerWidth st iw).isInitialized = st.isInitialized
    ∧ (setContainerWidth st iw).isIframeOpen = st.isIframeOpen
    ∧ (setContainerWidth st iw).originalButtonText = st.originalButtonText
    ∧ (setContainerWidth st iw).button = st.button
    ∧ (setContainerWidth st iw).iframe = st.iframe
    ∧ (setContainerWidth st iw).clickHandlerDefined = st.clickHandlerDefined
    ∧ (setContainerWidth st iw).resizeAttached = st.resizeAttached := by
  cases hic : st.iframeContainer <;> simp [setContainerWidth, hic]

theorem setButtonText_fields (st : WidgetState) (t : String) :
    (setButtonText st t).isInitialized = st.isInitialized
    ∧ (setButtonText st t).isIframeOpen = st.isIframeOpen
    ∧ (setButtonText st t).originalButtonText = st.originalButtonText
    ∧ (setButtonText st t).iframeContainer = st.iframeContainer
    ∧ (setButtonText st t).iframe = st.iframe
    ∧ (setButtonText st t).clickHandlerDefined = st.clickHandlerDefined
    ∧ (setButtonText st t).resizeAttached = st.resizeAttached := by
  cases hb : st.button <;> simp [setButtonText, hb]

theorem updateView_label (c : Inputs) (st : WidgetState) :
    labelOk (updateView c st) = true := by
  unfold updateView
  rw [labelOk_setContainerWidth, labelOk_applyButtonStyling]
  generalize (if st.isInitialized then st else { createUI c st with isInitialized := true }) = base
  cases hb : base.button <;> simp [setButtonText, labelOk, hb]

theorem updateView_fields (c : Inputs) (st : WidgetState) :
    (updateView c st).originalButtonText = jsOr c.buttonText "Agent1"
    ∧ (updateView c st).isIframeOpen = st.isIframeOpen
    ∧ (updateView c st).resizeAttached = st.resizeAttached := by
  unfold updateView
  have h1 := setContainerWidth_fields
    (applyButtonStyling c (setButtonText
      { (if st.isInitialized then st else { createUI c st with isInitialized := true }) with
        originalButtonText := jsOr c.buttonText "Agent1" }
      (if (if st.isInitialized then st
           else { createUI c st with isInitialized := true }).isIframeOpen then "Close"
       else jsOr c.buttonText "Agent1")))
    (jsOr c.iframeWidth "50%")
  refine ⟨?_, ?_, ?_⟩
  · rw [h1.2.2.1, (applyButtonStyling_fields _ _).2.2.1, (setButtonText_fields _ _).2.2.1]
  · rw [h1.2.1, (applyButtonStyling_fields _ _).2.1, (setButtonText_fields _ _).2.1]
    by_cases hinit : st.isInitialized <;> simp [hinit, createUI]
  · rw [h1.2.2.2.2.2.2, (applyButtonStyling_fields _ _).2.2.2.2.2.2.1,
        (setButtonText_fields _ _).2.2.2.2.2.2]
    by_cases hinit : st.isInitialized <;> simp [hinit, createUI]

theorem closeIframe_ok_fields (st s' : WidgetState) (h : closeIframe st = .ok s') :
    s'.isIframeOpen = false ∧ s'.resizeAttached = false
    ∧ s'.originalButtonText = st.originalButtonText
    ∧ s'.button.map (fun b => b.textContent)
        = st.button.map (fun _ => st.originalButtonText) := by
  cases hic : st.iframeContainer with
  | none => simp [closeIframe, deref, hic, Except.bind, Bind.bind] at h
  | some ic =>
    cases hif : st.iframe with
    | none => simp [closeIframe, deref, hic, hif, Except.bind, Bind.bind] at h
    | some ifr =>
      cases hb : st.button <;>
        simp_all [closeIframe, deref, hic, hif, hb, Except.bind, Bind.bind, pure, Except.pure] <;>
        subst h <;> simp

theorem openIframe_ok_fields (u : String) (st s' : WidgetState) (h : openIframe u st = .ok s') :
    s'.isIframeOpen = true ∧ s'.resizeAttached = true
    ∧ s'.button.map (fun b => b.textContent) = st.button.map (fun _ => "Close") := by
  cases hif : st.iframe with
  | none => simp [openIframe, deref, hif, Except.bind, Bind.bind] at h
  | some ifr =>
    cases hic : st.iframeContainer with
    | none => simp [openIframe, deref, hic, hif, Except.bind, Bind.bind] at h
    | some ic =>
      cases hb : st.button with
      | none => simp [openIframe, deref, hic, hif, hb, Except.bind, Bind.bind] at h
      | some b =>
        simp_all [openIframe, deref, hic, hif, hb, Except.bind, Bind.bind, pure, Except.pure]
        subst h
        simp

theorem destroy_ok_fields (st s' : WidgetState) (h : destroy st = .ok s') :
    s'.isIframeOpen = st.isIframeOpen ∧ s'.resizeAttached = false
    ∧ s'.originalButtonText = st.originalButtonText
    ∧ s'.button.map (fun b => b.textContent) = st.button.map (fun b => b.textContent) := by
  cases hb : st.button <;> cases hch : st.clickHandlerDefined <;>
    cases hic : st.iframeContainer <;>
    simp_all [destroy, deref, pure, Except.pure] <;>
    (try split_ifs at h) <;> subst h <;> simp

theorem toggleIframe_cases (c : Inputs) (st : WidgetState) :
    toggleIframe c st = .ok (st, true)
    ∨ (∃ s', toggleIframe c st = .ok (s', false) ∧ closeIframe st = .ok s')
    ∨ (∃ s', toggleIframe c st = .ok (s', false) ∧ openIframe (c.targetUrl.getD "") st = .ok s')
    ∨ (∃ e, toggleIframe c st = .error e) := by
  unfold toggleIframe
  by_cases hurl : jsTruthy c.targetUrl = false
  · rw [if_pos hurl]
    left
    rfl
  · rw [if_neg hurl]
    by_cases hopen : st.isIframeOpen = true
    · simp only [hopen, if_true]
      cases hcl : closeIframe st with
      | ok s' => exact Or.inr (Or.inl ⟨s', by simp [Except.map], rfl⟩)
      | error e => exact Or.inr (Or.inr (Or.inr ⟨e, by simp [Except.map]⟩))
    · simp only [hopen, if_false]
      cases hop : openIframe (c.targetUrl.getD "") st with
      | ok s' => exact Or.inr (Or.inr (Or.inl ⟨s', by simp [Except.map], rfl⟩))
      | error e => exact Or.inr (Or.inr (Or.inr ⟨e, by simp [Except.map]⟩))

theorem labelOk_closed_state (st s' : WidgetState)
    (h1 : s'.isIframeOpen = false)
    (h2 : s'.originalButtonText = st.originalButtonText)
    (h3 : s'.button.map (fun b => b.textContent) = st.button.map (fun _ => st.originalButtonText)) :
    labelOk s' = true := by
  unfold labelOk
  cases hb' : s'.button with
  | none => rfl
  | some b' =>
    rw [hb'] at h3
    cases hb : st.button with
    | none => rw [hb] at h3; simp at h3
    | some b =>
      rw [hb] at h3
      simp at h3
      simp [h1, h2, h3]

theorem labelOk_opened_state (st s' : WidgetState)
    (h1 : s'.isIframeOpen = true)
    (h3 : s'.button.map (fun b => b.textContent) = st.button.map (fun _ => "Close")) :
    labelOk s' = true := by
  unfold labelOk
  cases hb' : s'.button with
  | none => rfl
  | some b' =>
    rw [hb'] at h3
    cases hb : st.button with
    | none => rw [hb] at h3; simp at h3
    | some b =>
      rw [hb] at h3
      simp at h3
      simp [h1, h3]

theorem labelOk_of_fields (st s' : WidgetState)
    (h1 : s'.isIframeOpen = st.isIframeOpen)
    (h2 : s'.originalButtonText = st.originalButtonText)
    (h3 : s'.button.map (fun b => b.textContent) = st.button.map (fun b => b.textContent))
    (h : labelOk st = true) : labelOk s' = true := by
  unfold labelOk at h ⊢
  cases hb' : s'.button with
  | none => rfl
  | some b' =>
    cases hb : st.button with
    | none => rw [hb', hb] at h3; simp at h3
    | some b =>
      rw [hb', hb] at h3
      simp at h3
      rw [hb] at h
      rw [h1, h2]
      change (b'.textContent == if st.isIframeOpen = true then "Close" else st.originalButtonText) = true
      change (b.textContent == if st.isIframeOpen = true then "Close" else st.originalButtonText) = true at h
      rw [h3]
      exact h

theorem labelOk_stepFn (st : WidgetState) (op : Op) (h : labelOk st = true) :
    labelOk (stepFn st op) = true := by
  cases op with
  | updateView c => exact updateView_label c st
  | toggle c =>
    rcases toggleIframe_cases c st with heq | ⟨s', heq, hcl⟩ | ⟨s', heq, hop⟩ | ⟨e, heq⟩ <;>
      simp only [stepFn, heq]
    · exact h
    · obtain ⟨o1, _, o3, o4⟩ := closeIframe_ok_fields st s' hcl
      exact labelOk_closed_state st s' o1 o3 o4
    · obtain ⟨o1, _, o3⟩ := openIframe_ok_fields _ st s' hop
      exact labelOk_opened_state st s' o1 o3
    · exact h
  | destroy =>
    simp only [stepFn]
    cases hds : destroy st with
    | error e => exact h
    | ok s' =>
      obtain ⟨o1, _, o3, o4⟩ := destroy_ok_fields st s' hds
      exact labelOk_of_fields st s' o1 o3 o4 h

theorem labelOk_runFrom (l : List Op) : ∀ st : WidgetState, labelOk st = true →
    labelOk (runFrom st l) = true := by
  induction l with
  | nil => intro st h; exact h
  | cons op rest ih =>
    intro st h
    exact ih (stepFn st op) (labelOk_stepFn st op h)

theorem resize_step_noDestroy (st : WidgetState) (op : Op) (hop : op ≠ Op.destroy)
    (h : st.resizeAttached = st.isIframeOpen) :
    (stepFn st op).resizeAttached = (stepFn st op).isIframeOpen := by
  cases op with
  | updateView c =>
    simp only [stepFn]
    rw [(updateView_fields c st).2.2, (updateView_fields c st).2.1, h]
  | toggle c =>
    rcases toggleIframe_cases c st with heq | ⟨s', heq, hcl⟩ | ⟨s', heq, hop'⟩ | ⟨e, heq⟩ <;>
      simp only [stepFn, heq]
    · exact h
    · obtain ⟨o1, o2, _, _⟩ := closeIframe_ok_fields st s' hcl
      rw [o1, o2]
    · obtain ⟨o1, o2, _⟩ := openIframe_ok_fields _ st s' hop'
      rw [o1, o2]
    · exact h
  | destroy => exact absurd rfl hop

theorem resize_imp_step (st : WidgetState) (op : Op)
    (h : st.resizeAttached = true → st.isIframeOpen = true) :
    (stepFn st op).resizeAttached = true → (stepFn st op).isIframeOpen = true := by
  cases op with
  | updateView c =>
    simp only [stepFn]
    rw [(updateView_fields c st).2.2, (updateView_fields c st).2.1]
    exact h
  | toggle c =>
    rcases toggleIframe_cases c st with heq | ⟨s', heq, hcl⟩ | ⟨s', heq, hop'⟩ | ⟨e, heq⟩ <;>
      simp only [stepFn, heq]
    · exact h
    · obtain ⟨o1, o2, _, _⟩ := closeIframe_ok_fields st s' hcl
      rw [o1, o2]
      simp
    · obtain ⟨o1, o2, _⟩ := openIframe_ok_fields _ st s' hop'
      rw [o1]
      intro _
      rfl
    · exact h
  | destroy =>
    simp only [stepFn]
    cases hds : destroy st with
    | error e => exact h
    | ok s' =>
      obtain ⟨o1, o2, _, _⟩ := destroy_ok_fields st s' hds
      rw [o2]
      simp

theorem resize_paired_runFrom (l : List Op) : ∀ st : WidgetState, hasDestroy l = false →
    st.resizeAttached = st.isIframeOpen →
    (runFrom st l).resizeAttached = (runFrom st l).isIframeOpen := by
  induction l with
  | nil => intro st _ h; exact h
  | cons op rest ih =>
    intro st hnd h
    have hop : op ≠ Op.destroy := by
      intro hcontra
      subst hcontra
      simp [hasDestroy] at hnd
    have hrest : hasDestroy rest = false := by
      cases op with
      | updateView c => simpa [hasDestroy] using hnd
      | toggle c => simpa [hasDestroy] using hnd
      | destroy => simp [hasDestroy] at hnd
    exact ih (stepFn st op) hrest (resize_step_noDestroy st op hop h)

theorem resize_imp_runFrom (l : List Op) : ∀ st : WidgetState,
    (st.resizeAttached = true → st.isIframeOpen = true) →
    (runFrom st l).resizeAttached = true → (runFrom st l).isIframeOpen = true := by
  induction l with
  | nil => intro st h; exact h
  | cons op rest ih =>
    intro st h
    exact ih (stepFn st op) (resize_imp_step st op h)

/-- C7: in every state reachable by any sequence of operations the button
label (once the button exists) is exactly "Close" when isOpen is true and
exactly originalButtonText when isOpen is false; and refresh re-derives the
label from the current config.buttonText (default "Agent1") and the current
isOpen, which it leaves unchanged. -/
theorem button_label_invariant :
    (∀ l : List Op, labelOk (runOps l) = true)
    ∧ (∀ c : Inputs, ∀ st : WidgetState,
        (updateView c st).originalButtonText = jsOr c.buttonText "Agent1"
        ∧ (updateView c st).isIframeOpen = st.isIframeOpen
        ∧ labelOk (updateView c st) = true) := by
  refine ⟨?_, ?_⟩
  · intro l
    exact labelOk_runFrom l initState (by decide)
  · intro c st
    exact ⟨(updateView_fields c st).1, (updateView_fields c st).2.1, updateView_label c st⟩

/-- Witness for C7 on a concrete operation sequence. -/
theorem button_label_invariant_inst :
    labelOk (runOps [Op.updateView cfgUrl, Op.toggle cfgUrl]) = true ∧
    (updateView cfgUrl initState).originalButtonText = jsOr cfgUrl.buttonText "Agent1" :=
  ⟨button_label_invariant.1 [Op.updateView cfgUrl, Op.toggle cfgUrl],
   (button_label_invariant.2 cfgUrl initState).1⟩

/-- C8 (amended): in every reachable state produced without a teardown, the
window-resize listener is attached exactly when the widget is open (each
successful open attaches it, each close detaches it); and in every reachable
state whatsoever — teardowns included — an attached listener implies the
widget is open, so the listener is never leaked.  (The unamended claim
required attached-iff-open in all reachable states, but teardown detaches the
listener while leaving the open flag set — see the counterexample.) -/
theorem resize_listener_pairing :
    (∀ l : List Op, hasDestroy l = false →
        (runOps l).resizeAttached = (runOps l).isIframeOpen)
    ∧ (∀ l : List Op, (runOps l).resizeAttached = true → (runOps l).isIframeOpen = true) := by
  refine ⟨?_, ?_⟩
  · intro l hnd
    exact resize_paired_runFrom l initState hnd (by decide)
  · intro l
    exact resize_imp_runFrom l initState (by intro h; exact absurd h (by decide))

/-- The widget after a refresh, an opening toggle, and a teardown. -/
def destroyedOpenState : WidgetState :=
  runOps [Op.updateView cfgUrl, Op.toggle cfgUrl, Op.destroy]

/-- Counterexample to C8 as stated: after refresh, open, teardown — a
reachable state — the widget's open flag is still true while the resize
listener is detached, so attached-iff-open fails. -/
theorem resize_listener_after_destroy_open :
    Reachable destroyedOpenState
    ∧ destroyedOpenState.isIframeOpen = true
    ∧ destroyedOpenState.resizeAttached = false :=
  ⟨⟨[Op.updateView cfgUrl, Op.toggle cfgUrl, Op.destroy], rfl⟩, by decide, by decide⟩

/-- Witness for C8 (amended) on a concrete teardown-free sequence. -/
theorem resize_listener_pairing_inst :
    hasDestroy [Op.updateView cfgUrl, Op.toggle cfgUrl] = false ∧
    (runOps [Op.updateView cfgUrl, Op.toggle cfgUrl]).resizeAttached =
      (runOps [Op.updateView cfgUrl, Op.toggle cfgUrl]).isIframeOpen :=
  ⟨by decide, resize_listener_pairing.1 [Op.updateView cfgUrl, Op.toggle cfgUrl] (by decide)⟩

/-- C9: teardown never throws on ANY state, including the never-initialized
widget whose DOM handles are all undefined; it always succeeds, detaches the
window-resize listener, removes the overlay from the document when present,
and removes the button click listener when the handler was registered. -/
theorem destroy_total_cleanup (st : WidgetState) :
    ∃ s', destroy st = .ok s'
      ∧ s'.resizeAttached = false
      ∧ s'.iframeContainer.all (fun ic => ic.inDom == false) = true
      ∧ (st.clickHandlerDefined = true →
          s'.button.all (fun b => b.clickAttached == false) = true)
      ∧ s'.isIframeOpen = st.isIframeOpen := by
  refine ⟨_, rfl, ?_, ?_, ?_, ?_⟩ <;>
    cases hb : st.button <;> cases hch : st.clickHandlerDefined <;>
    cases hic : st.iframeContainer <;>
    simp [destroy, deref, pure, Except.pure, hb, hch, hic] <;>
    split_ifs <;> simp_all

/-- Witness for C9 on the never-initialized widget. -/
theorem destroy_total_cleanup_inst :
    ∃ s', destroy initState = .ok s'
      ∧ s'.resizeAttached = false
      ∧ s'.iframeContainer.all (fun ic => ic.inDom == false) = true
      ∧ (initState.clickHandlerDefined = true →
          s'.button.all (fun b => b.clickAttached == false) = true)
      ∧ s'.isIframeOpen = initState.isIframeOpen :=
  destroy_total_cleanup initState

/-! ## Style lookup lemmas -/

theorem getStyleProp_set_same (l : List StyleDecl) (n v : String) (i : Bool) :
    getStyleProp (setStyleProp l n v i) n = some (v, i) := by
  induction l with
  | nil => simp [setStyleProp, getStyleProp]
  | cons d rest ih =>
    obtain ⟨n', v', i'⟩ := d
    by_cases h : n' = n <;> simp [setStyleProp, getStyleProp, h, ih]

theorem getStyleProp_set_ne (l : List StyleDecl) (n v : String) (i : Bool) (m : String)
    (h : n ≠ m) : getStyleProp (setStyleProp l n v i) m = getStyleProp l m := by
  induction l with
  | nil => simp [setStyleProp, getStyleProp, h]
  | cons d rest ih =>
    obtain ⟨n', v', i'⟩ := d
    by_cases h' : n' = n
    · subst h'
      simp [setStyleProp, getStyleProp, h]
    · by_cases h'' : n' = m <;> simp [setStyleProp, getStyleProp, h, h', h'', ih, Ne.symm h]

theorem getStyleProp_maybeSet_ne (o : Option String) (name : String) (l : List StyleDecl)
    (m : String) (h : name ≠ m) :
    getStyleProp (maybeSet o name l) m = getStyleProp l m := by
  cases o with
  | none => rfl
  | some v =>
    by_cases hv : v = "" <;> simp [maybeSet, hv, getStyleProp_set_ne _ _ _ _ _ h]

theorem getStyleProp_colorBlock_ne (o : Option String) (l : List StyleDecl) (m : String)
    (h1 : m ≠ "background-color") (h2 : m ≠ "--hover-color") :
    getStyleProp (applyColorBlock o l) m = getStyleProp l m := by
  cases o with
  | none => rfl
  | some v =>
    by_cases hv : v = "" <;>
      simp [applyColorBlock, hv, getStyleProp_set_ne _ _ _ _ _ (Ne.symm h2),
            getStyleProp_set_ne _ _ _ _ _ (Ne.symm h1)]

theorem getStyleProp_fold_ne (pairs : List (String × String)) (m : String) :
    ∀ l : List StyleDecl, (∀ pv ∈ pairs, pv.1 ≠ m) →
    getStyleProp (pairs.foldl (fun acc pv => setStyleProp acc pv.1 pv.2 false) l) m
      = getStyleProp l m := by
  induction pairs with
  | nil => intro l _; rfl
  | cons pv rest ih =>
    intro l hne
    simp only [List.foldl_cons]
    rw [ih _ (fun q hq => hne q (List.mem_cons_of_mem pv hq))]
    exact getStyleProp_set_ne _ _ _ _ _ (hne pv (List.mem_cons_self pv rest))

theorem getStyleProp_customBlock_ne (o : Option String) (l : List StyleDecl) (m : String)
    (h : ∀ cs, o = some cs → ∀ pv ∈ parseCustomStyle cs, pv.1 ≠ m) :
    getStyleProp (applyCustomBlock o l) m = getStyleProp l m := by
  cases o with
  | none => rfl
  | some cs =>
    by_cases hcs : cs = ""
    · simp [applyCustomBlock, hcs]
    · simp only [applyCustomBlock, hcs, ne_eq, not_false_eq_true, if_true]
      exact getStyleProp_fold_ne _ _ l (h cs rfl)

theorem getStyleProp_restBlocks (c : Inputs) (l : List StyleDecl) (m : String)
    (hm : m = "width" ∨ m = "height")
    (hcust : ∀ cs, c.buttonCustomStyle = some cs → ∀ pv ∈ parseCustomStyle cs, pv.1 ≠ m) :
    getStyleProp (applyCustomBlock c.buttonCustomStyle
      (maybeSet c.buttonBorderRadius "border-radius"
      (maybeSet c.buttonBorderColor "border-color"
      (maybeSet c.buttonBorderStyle "border-style"
      (maybeSet c.buttonBorderWidth "border-width"
      (maybeSet c.buttonFontFamily "font-family"
      (maybeSet c.buttonFontSize "font-size"
      (maybeSet c.buttonTextColor "color"
      (applyColorBlock c.buttonColor l))))))))) m = getStyleProp l m := by
  rcases hm with rfl | rfl <;>
  rw [getStyleProp_customBlock_ne _ _ _ hcust,
      getStyleProp_maybeSet_ne _ _ _ _ (by decide),
      getStyleProp_maybeSet_ne _ _ _ _ (by decide),
      getStyleProp_maybeSet_ne _ _ _ _ (by decide),
      getStyleProp_maybeSet_ne _ _ _ _ (by decide),
      getStyleProp_maybeSet_ne _ _ _ _ (by decide),
      getStyleProp_maybeSet_ne _ _ _ _ (by decide),
      getStyleProp_maybeSet_ne _ _ _ _ (by decide),
      getStyleProp_colorBlock_ne _ _ _ (by decide) (by decide)]

/-- C10 (amended): on every refresh of an initialized widget, applyStyling
sets the button's width and height inline declarations with "important"
priority, defaulting to "100px"/"40px" when the config values are absent or
empty — provided the resulting value does not trim to nothing and the
custom-style string does not itself name that property.  (The unamended
claim said this happens unconditionally and that a custom-style width/height
cannot take effect over it; a whitespace-only value is skipped, and a
custom-style width/height, applied afterwards via setProperty, REPLACES the
declaration together with its important flag — see the counterexample.) -/
theorem forced_width_height_important (c : Inputs) (st : WidgetState) (b : ButtonState)
    (hb : st.button = some b)
    (hw : trimChars (jsOr c.buttonWidth "100px").data ≠ [])
    (hh : trimChars (jsOr c.buttonHeight "40px").data ≠ [])
    (hcust : ∀ cs, c.buttonCustomStyle = some cs →
        ∀ pv ∈ parseCustomStyle cs, pv.1 ≠ "width" ∧ pv.1 ≠ "height") :
    (applyButtonStyling c st).button.all
      (fun b' => getStyleProp b'.style "width" == some (jsOr c.buttonWidth "100px", true)
        && getStyleProp b'.style "height" == some (jsOr c.buttonHeight "40px", true)) = true := by
  have hwne : jsOr c.buttonWidth "100px" ≠ "" := by
    intro hcontra
    rw [hcontra] at hw
    exact hw rfl
  have hwtr : (⟨trimChars (jsOr c.buttonWidth "100px").data⟩ : String) ≠ "" := by
    intro hcontra
    exact hw ((mkString_eq_empty _).mp hcontra)
  have hhne : jsOr c.buttonHeight "40px" ≠ "" := by
    intro hcontra
    rw [hcontra] at hh
    exact hh rfl
  have hhtr : (⟨trimChars (jsOr c.buttonHeight "40px").data⟩ : String) ≠ "" := by
    intro hcontra
    exact hh ((mkString_eq_empty _).mp hcontra)
  simp only [applyButtonStyling, hb, Option.all]
  rw [if_pos ⟨hhne, hhtr⟩, if_pos ⟨hwne, hwtr⟩]
  rw [getStyleProp_restBlocks c _ "width" (Or.inl rfl)
        (fun cs hcs pv hpv => (hcust cs hcs pv hpv).1),
      getStyleProp_restBlocks c _ "height" (Or.inr rfl)
        (fun cs hcs pv hpv => (hcust cs hcs pv hpv).2),
      getStyleProp_set_ne _ _ _ _ _ (by decide),
      getStyleProp_set_same, getStyleProp_set_same]
  simp

def btn0 : ButtonState :=
  { textContent := "Agent1", classList := [], style := [], clickAttached := true }

def stWithButton : WidgetState := { initState with button := some btn0 }

/-- Counterexample to C10 as stated: with custom style "width: 200px" the
final width declaration is ("200px", not important) — the custom pair took
effect over the forced important "100px" — and with buttonWidth " "
(whitespace-only) no width declaration is produced at all. -/
theorem custom_width_overrides_forced :
    (applyButtonStyling { buttonCustomStyle := some "width: 200px" } refreshedState).button.isSome
      = true
    ∧ (applyButtonStyling { buttonCustomStyle := some "width: 200px" } refreshedState).button.all
        (fun b => getStyleProp b.style "width" == some ("200px", false)) = true
    ∧ (applyButtonStyling { buttonWidth := some " " } stWithButton).button.isSome = true
    ∧ (applyButtonStyling { buttonWidth := some " " } stWithButton).button.all
        (fun b => getStyleProp b.style "width" == none) = true := by decide

def cfgC10 : Inputs := { buttonCustomStyle := some "color:red" }

/-- Witness for C10 (amended) at a concrete config and button. -/
theorem forced_width_height_important_inst :
    stWithButton.button = some btn0
    ∧ trimChars (jsOr cfgC10.buttonWidth "100px").data ≠ []
    ∧ trimChars (jsOr cfgC10.buttonHeight "40px").data ≠ []
    ∧ (applyButtonStyling cfgC10 stWithButton).button.all
        (fun b' => getStyleProp b'.style "width" == some (jsOr cfgC10.buttonWidth "100px", true)
          && getStyleProp b'.style "height" == some (jsOr cfgC10.buttonHeight "40px", true)) = true :=
  ⟨rfl, by decide, by decide,
   forced_width_height_important cfgC10 stWithButton btn0 rfl (by decide) (by decide)
     (by
       intro cs hcs pv hpv
       injection hcs with h
       subst h
       revert pv hpv
       decide)⟩

/-- Counterexample to C3 as stated: on the segment "a:b:c" the code applies
the value "b" (text after the second colon is dropped), not "b:c" as a
split-on-first-colon reading would give. -/
theorem customStyle_not_first_colon :
    parseCustomStyle "a:b:c" = [("a", "b")]
    ∧ parseCustomStyleFirstColon "a:b:c" = [("a", "b:c")]
    ∧ parseCustomStyle "a:b:c" ≠ parseCustomStyleFirstColon "a:b:c"
    ∧ (applyButtonStyling { buttonCustomStyle := some "a:b:c" } refreshedState).button.all
        (fun b => getStyleProp b.style "a" == some ("b", false)) = true := by decide

/-- Witness for C3 (amended) at concrete custom-style strings. -/
theorem applyCustomStyle_segments_inst :
    parseCustomStyle "background:url(x); color:red" =
      parseCustomStyleTakeTwo "background:url(x); color:red"
    ∧ (("a" : String) ≠ "" ∧ ("b" : String) ≠ "") :=
  ⟨applyCustomStyle_segments.1 "background:url(x); color:red",
   applyCustomStyle_segments.2.1 "a:b" "a" "b" (by decide)⟩
